import Mathlib

/-!
Shallow embedding of the nearest-neighbor adapter `KnnFaiss`
(src/src/Open3D/Geometry/KnnFaiss.cpp) of the Open3D fork.

Conventions of the embedding:
* IEEE-754 doubles and floats are represented by their bit patterns
  (`Nat` below `2 ^ 64` resp. `2 ^ 32`); finite values are decoded to exact
  rationals by `doubleBitsToRat` / `floatBitsToRat`.
* The member buffer `data_` (a `std::vector<float>` per the spec's
  "flat column-major buffer of 32-bit floating point"; the class header is
  not part of the visible sources) is a list of 32-bit float patterns.
* `memcpy` is modelled at the byte level with little-endian serialization,
  matching the platforms the code targets.
* The external faiss flat index is a black-box capability; its behaviour
  (exhaustive squared-L2 search) is modelled from the spec.
-/

namespace Open3DKnn

/-- Decode a 32-bit IEEE-754 float bit pattern to its exact rational value;
`none` for infinities and NaNs (exponent field 255). -/
def floatBitsToRat (b : Nat) : Option ℚ :=
  let s := b / 2 ^ 31 % 2
  let e := b / 2 ^ 23 % 2 ^ 8
  let m := b % 2 ^ 23
  if e = 255 then none
  else
    let num : Nat := if e = 0 then m else 2 ^ 23 + m
    let mag : ℚ :=
      if e ≤ 150 then (num : ℚ) / ((2 ^ (150 - max e 1) : Nat) : ℚ)
      else ((num * 2 ^ (e - 150) : Nat) : ℚ)
    some (if s = 1 then -mag else mag)

/-- Decode a 64-bit IEEE-754 double bit pattern to its exact rational value;
`none` for infinities and NaNs (exponent field 2047). -/
def doubleBitsToRat (b : Nat) : Option ℚ :=
  let s := b / 2 ^ 63 % 2
  let e := b / 2 ^ 52 % 2 ^ 11
  let m := b % 2 ^ 52
  if e = 2047 then none
  else
    let num : Nat := if e = 0 then m else 2 ^ 52 + m
    let mag : ℚ :=
      if e ≤ 1075 then (num : ℚ) / ((2 ^ (1075 - max e 1) : Nat) : ℚ)
      else ((num * 2 ^ (e - 1075) : Nat) : ℚ)
    some (if s = 1 then -mag else mag)

/-- Value of a float bit pattern, defaulting non-finite patterns to 0. -/
def ratOfFloatBits (b : Nat) : ℚ := (floatBitsToRat b).getD 0

/-- Value of a double bit pattern, defaulting non-finite patterns to 0. -/
def ratOfDoubleBits (b : Nat) : ℚ := (doubleBitsToRat b).getD 0

/-- Little-endian byte serialization of a `w`-byte machine word. -/
def leBytes (w x : Nat) : List Nat := (List.range w).map (fun i => x / 256 ^ i % 256)

/-- Reassemble a little-endian byte list into a machine word. -/
def bytesToNat (bs : List Nat) : Nat := bs.foldr (fun b acc => b + 256 * acc) 0

/-- The byte-level effect of
`memcpy(data_.data(), data.data(), n * sizeof(float))` where `data.data()`
points at `n` doubles and `data_` holds `n` floats: the first `4 * n` bytes
of the 8-byte-per-element source are reinterpreted as `n` 4-byte floats. -/
def memcpyFloatsFromDoubles (src : List Nat) (n : Nat) : List Nat :=
  let bytes := (src.map (leBytes 8)).flatten
  (List.range n).map (fun j => bytesToNat ((bytes.drop (4 * j)).take 4))

/-- The backend flat-index handle: dimensionality, number of stored vectors,
and the stored 32-bit float patterns (point-major, as fed to `add`). -/
structure FaissIndex where
  d : Nat
  ntotal : Nat
  xs : List Nat
deriving DecidableEq

/-- The adapter state: `data_` (float buffer), `dimension_`, `dataset_size_`
and the owned backend handle `index`. -/
structure KnnFaiss where
  data_ : List Nat
  dimension_ : Nat
  dataset_size_ : Nat
  index : Option FaissIndex
deriving DecidableEq

/-- A default-constructed adapter: empty buffer, zero sizes, no backend. -/
def KnnFaiss.init : KnnFaiss := ⟨[], 0, 0, none⟩

/-- Result of an ingestion call: the returned bool, whether a warning was
logged, and the post state. -/
structure IngestResult where
  ok : Bool
  warned : Bool
  post : KnnFaiss
deriving DecidableEq

/-- KnnFaiss::SetRawData. The source matrix is `rows × cols`, column-major,
given as double bit patterns. Mirrors the source order: `dimension_` and
`dataset_size_` are assigned before the emptiness check; on the empty case
it warns and returns false without touching `data_` or `index`; otherwise
it resizes `data_`, copies `dataset_size_ * dimension_ * sizeof(float)`
bytes from the double source (see `memcpyFloatsFromDoubles`), rebuilds the
flat-L2 backend and adds the buffer to it. -/
def setRawData (s : KnnFaiss) (rows cols : Nat) (src : List Nat) : IngestResult :=
  let s1 : KnnFaiss := { s with dimension_ := rows, dataset_size_ := cols }
  if rows = 0 ∨ cols = 0 then ⟨false, true, s1⟩
  else
    let n := cols * rows
    let buf := memcpyFloatsFromDoubles src n
    ⟨true, false, { s1 with data_ := buf, index := some ⟨rows, cols, buf⟩ }⟩

/-- KnnFaiss::SetMatrixData: forwards the matrix to SetRawData through an
identity `Eigen::Map` (same rows, cols and storage). -/
def setMatrixData (s : KnnFaiss) (rows cols : Nat) (src : List Nat) : IngestResult :=
  setRawData s rows cols src

/-- KnnFaiss::SetFeature: forwards the feature matrix to SetMatrixData. -/
def setFeature (s : KnnFaiss) (rows cols : Nat) (src : List Nat) : IngestResult :=
  setMatrixData s rows cols src

/-- The geometry variants that appear in the SetGeometry dispatch. -/
inductive GeometryType
  | PointCloud
  | TriangleMesh
  | HalfEdgeTriangleMesh
  | Image
  | Unspecified
deriving DecidableEq

/-- A geometry object: its variant tag, the number of 3-D points or
vertices it exposes, and their coordinates as a flat point-major list of
double bit patterns (3 per point). -/
structure Geometry where
  gtype : GeometryType
  npoints : Nat
  coords : List Nat
deriving DecidableEq

/-- KnnFaiss::SetGeometry: closed switch over the variant tag. Supported
variants forward the 3 × n position block to SetRawData; Image,
Unspecified (and the default arm) log a warning and return false. -/
def setGeometry (s : KnnFaiss) (g : Geometry) : IngestResult :=
  match g.gtype with
  | .PointCloud => setRawData s 3 g.npoints g.coords
  | .TriangleMesh => setRawData s 3 g.npoints g.coords
  | .HalfEdgeTriangleMesh => setRawData s 3 g.npoints g.coords
  | .Image => ⟨false, true, s⟩
  | .Unspecified => ⟨false, true, s⟩

/-- A query block: `rows` coordinates per column, `cols` query columns,
values flat column-major as exact rationals (the values the caller's
Eigen vector holds, after the float working-precision downcast of the
query path). -/
structure Query where
  rows : Nat
  cols : Nat
  vals : List ℚ
deriving DecidableEq

/-- Column `c` of a query block. -/
def queryCol (q : Query) (c : Nat) : List ℚ := (q.vals.drop (c * q.rows)).take q.rows

/-- Squared Euclidean distance between two coordinate lists. -/
def sqDistQ (a b : List ℚ) : ℚ := (List.zipWith (fun x y => (x - y) * (x - y)) a b).sum

/-- Stored vector `i` of the backend, decoded to rationals. -/
def idxPoint (fi : FaissIndex) (i : Nat) : List ℚ :=
  (List.range fi.d).map (fun j => ratOfFloatBits (fi.xs.getD (i * fi.d + j) 0))

/-- Ordering on (label, squared distance) pairs: ascending distance, ties by
ascending label. -/
def pairLE (a b : Nat × ℚ) : Bool := decide (a.2 < b.2 ∨ (a.2 = b.2 ∧ a.1 ≤ b.1))

/-- Insert into a `pairLE`-sorted list. -/
def insertPair (a : Nat × ℚ) : List (Nat × ℚ) → List (Nat × ℚ)
  | [] => [a]
  | b :: bs => if pairLE a b then a :: b :: bs else b :: insertPair a bs

/-- Insertion sort by `pairLE`. -/
def sortPairs : List (Nat × ℚ) → List (Nat × ℚ)
  | [] => []
  | a :: rest => insertPair a (sortPairs rest)

/-- Modelled from the spec: the external flat-index fixed-count search
capability (faiss `IndexFlatL2::search`, not part of this repository) is an
exhaustive squared-L2 scan of all stored vectors returning the `k` best,
ascending by distance. -/
def flatKnnSearch (fi : FaissIndex) (q : List ℚ) (k : Nat) : List (Nat × ℚ) :=
  (sortPairs ((List.range fi.ntotal).map (fun i => (i, sqDistQ q (idxPoint fi i))))).take k

/-- What a fixed-count backend invocation wrote into the caller's output
buffers: result labels and squared distances, per query column. -/
structure KnnOut where
  labels : List Nat
  dists : List ℚ
deriving DecidableEq

/-- Batch fixed-count search over all query columns. -/
def flatKnnSearchBatch (fi : FaissIndex) (q : Query) (k : Nat) : KnnOut :=
  let res := (List.range q.cols).map (fun c => flatKnnSearch fi (queryCol q c) k)
  ⟨(res.map (fun col => col.map Prod.fst)).flatten,
   (res.map (fun col => col.map Prod.snd)).flatten⟩

/-- A stand-in backend handle for the (unreachable through the public API)
case of a passed guard with no built backend. -/
def emptyIndex : FaissIndex := ⟨0, 0, []⟩

/-- Result of a SearchKNN call: the returned int, the backend invocation
(`none` when the backend was not called), and the post state. -/
structure KnnResult where
  ret : Int
  call : Option KnnOut
  post : KnnFaiss
deriving DecidableEq

/-- KnnFaiss::SearchKNN: guard `data_.empty() || dataset_size_ <= 0 ||
size_t(query.rows()) != dimension_ || knn < 0` returns -1 without touching
the backend; otherwise `index->search` is invoked on all query columns and
`knn` is returned. The method is const: the post state carries every member
unchanged. -/
def searchKNN (s : KnnFaiss) (q : Query) (knn : Int) : KnnResult :=
  if s.data_ = [] ∨ s.dataset_size_ = 0 ∨ q.rows ≠ s.dimension_ ∨ knn < 0 then
    ⟨-1, none, s⟩
  else
    ⟨knn, some (flatKnnSearchBatch (s.index.getD emptyIndex) q knn.toNat), s⟩

/-- What a range-search backend invocation received: the number of query
columns and the radius, forwarded verbatim. -/
structure RangeCall where
  nq : Nat
  radius : ℚ
deriving DecidableEq

/-- Result of a SearchRadius call. -/
structure RangeResult where
  ret : Int
  call : Option RangeCall
  post : KnnFaiss
deriving DecidableEq

/-- KnnFaiss::SearchRadius: guard `data_.empty() || dataset_size_ <= 0 ||
size_t(query.rows()) != dimension_` returns -1 without touching the
backend; otherwise `index->range_search` is invoked with the radius
forwarded unchecked and the constant 1 is returned. Const method: post
state unchanged. -/
def searchRadius (s : KnnFaiss) (q : Query) (radius : ℚ) : RangeResult :=
  if s.data_ = [] ∨ s.dataset_size_ = 0 ∨ q.rows ≠ s.dimension_ then
    ⟨-1, none, s⟩
  else
    ⟨1, some ⟨q.cols, radius⟩, s⟩

/-- A backend invocation made by the dispatching Search entry point. -/
inductive BackendCall
  | knnCall (out : KnnOut)
  | rangeCall (c : RangeCall)
deriving DecidableEq

/-- Result of a Search call. -/
structure SearchResult where
  ret : Int
  call : Option BackendCall
  post : KnnFaiss
deriving DecidableEq

/-- Modelled from the spec (the KDTreeSearchParam class hierarchy is not
among the visible sources): a tagged choice of search mode — Knn carries
`knn_`, Radius carries `radius_`, Hybrid carries both. -/
inductive KDTreeSearchParam
  | knnParam (k : Int)
  | radiusParam (r : ℚ)
  | hybridParam (k : Int) (r : ℚ)
deriving DecidableEq

/-- KnnFaiss::Search: switch on the param tag — Knn forwards to SearchKNN,
Radius to SearchRadius, Hybrid (and the default arm) returns -1 without
invoking either operation. -/
def search (s : KnnFaiss) (q : Query) (p : KDTreeSearchParam) : SearchResult :=
  match p with
  | .knnParam k =>
    let r := searchKNN s q k
    ⟨r.ret, r.call.map .knnCall, r.post⟩
  | .radiusParam rad =>
    let r := searchRadius s q rad
    ⟨r.ret, r.call.map .rangeCall, r.post⟩
  | .hybridParam _ _ => ⟨-1, none, s⟩

/-- The bit pattern of the double 1.0. -/
def oneBits : Nat := 0x3FF0000000000000

/-- An index built from the 1 × 1 double matrix [[1.0]]. -/
def builtOne : KnnFaiss := (setRawData KnnFaiss.init 1 1 [oneBits]).post

/-- C1: evaluation of ingestion at the 1 × 1 double matrix [[1.0]]. The
claim says the stored buffer is the element-wise float downcast of the
source, so buffer[0] should be 1.0f (bit pattern 0x3F800000, value 1,
exactly representable). The code instead memcpy-reinterprets the low four
bytes of the eight-byte double, storing bit pattern 0 (value 0): the
stored value is strictly below the claimed one. -/
theorem C1_ingest_is_not_elementwise_downcast :
    (setRawData KnnFaiss.init 1 1 [oneBits]).post.data_ = [0] ∧
    doubleBitsToRat oneBits = some 1 ∧
    floatBitsToRat 0x3F800000 = some 1 ∧
    ratOfFloatBits 0 < ratOfDoubleBits oneBits := by
  refine ⟨by decide, by norm_num [doubleBitsToRat, oneBits],
    by norm_num [floatBitsToRat], ?_⟩
  have h1 : ratOfFloatBits 0 = 0 := by norm_num [ratOfFloatBits, floatBitsToRat]
  have h2 : ratOfDoubleBits oneBits = 1 := by
    norm_num [ratOfDoubleBits, doubleBitsToRat, oneBits]
  rw [h1, h2]
  norm_num

/-- C2: evaluation of the full pipeline at the 1 × 1 matrix [[1.0]] with
query equal to column 0 and k = 1. Ingestion succeeds, but because the
buffer holds the byte-reinterpreted value 0.0f instead of the downcast
1.0f, the k = 1 search of the point's own column returns index 0 with
squared distance 1, not 0 (the downcast of 1.0 is exact, so no
floating-point rounding is involved). -/
theorem C2_self_query_has_nonzero_distance :
    (setMatrixData KnnFaiss.init 1 1 [oneBits]).ok = true ∧
    searchKNN (setMatrixData KnnFaiss.init 1 1 [oneBits]).post ⟨1, 1, [1]⟩ 1 =
      ⟨1, some ⟨[0], [1]⟩, (setMatrixData KnnFaiss.init 1 1 [oneBits]).post⟩ ∧
    (0 : ℚ) < 1 := by
  refine ⟨by decide, ?_, by norm_num⟩
  show searchKNN builtOne ⟨1, 1, [1]⟩ 1 = ⟨1, some ⟨[0], [1]⟩, builtOne⟩
  have h0 : ratOfFloatBits 0 = 0 := by norm_num [ratOfFloatBits, floatBitsToRat]
  have hidx : builtOne.index.getD emptyIndex = ⟨1, 1, [0]⟩ := by decide
  rw [searchKNN, if_neg (by decide), hidx]
  simp [flatKnnSearchBatch, flatKnnSearch, sortPairs, insertPair, queryCol, idxPoint,
    sqDistQ, h0, List.range_succ]

/-- C3 counterexample: the claim quantifies over every index state. On an
index previously built from a 1 × 1 matrix, ingesting the empty 0 × 5
matrix returns false, but a subsequent SearchKNN with a zero-row query and
k = 2 passes every guard (stale data_ is non-empty, dataset_size_ was
overwritten with 5, the query's 0 rows equal the overwritten dimension_ 0)
and returns 2, not the sentinel -1. -/
theorem C3_counterexample_stale_search_succeeds :
    (setRawData builtOne 0 5 []).ok = false ∧
    (searchKNN (setRawData builtOne 0 5 []).post ⟨0, 1, []⟩ 2).ret = 2 ∧
    (-1 : Int) < 2 := by decide

/-- C3 amended: on an index that has never been successfully built (its
buffer data_ is empty), ingesting a matrix with 0 rows or 0 columns
returns false, leaves data_ empty, and every subsequent search — Search
with any param, SearchKNN with any k, SearchRadius with any radius, any
query — returns the sentinel -1. -/
theorem C3_empty_ingest_leaves_unbuilt (s : KnnFaiss) (hs : s.data_ = [])
    (rows cols : Nat) (src : List Nat) (h : rows = 0 ∨ cols = 0) :
    (setRawData s rows cols src).ok = false ∧
    (setRawData s rows cols src).post.data_ = [] ∧
    (∀ q p, (search (setRawData s rows cols src).post q p).ret = -1) ∧
    (∀ q k, (searchKNN (setRawData s rows cols src).post q k).ret = -1) ∧
    (∀ q r, (searchRadius (setRawData s rows cols src).post q r).ret = -1) := by
  have hset : setRawData s rows cols src =
      ⟨false, true, { s with dimension_ := rows, dataset_size_ := cols }⟩ := by
    simp only [setRawData]
    rw [if_pos h]
  have hd : (setRawData s rows cols src).post.data_ = [] := by rw [hset]; exact hs
  have hknn : ∀ q k, (searchKNN (setRawData s rows cols src).post q k).ret = -1 := by
    intro q k
    rw [searchKNN, if_pos (Or.inl hd)]
  have hrad : ∀ q r, (searchRadius (setRawData s rows cols src).post q r).ret = -1 := by
    intro q r
    rw [searchRadius, if_pos (Or.inl hd)]
  refine ⟨by rw [hset], hd, ?_, hknn, hrad⟩
  intro q p
  cases p with
  | knnParam k => exact hknn q k
  | radiusParam r => exact hrad q r
  | hybridParam k r => rfl

/-- C3 witness at a concrete input. -/
theorem C3_witness :
    (setRawData KnnFaiss.init 0 5 []).ok = false ∧
    (search (setRawData KnnFaiss.init 0 5 []).post ⟨3, 1, [1, 2, 3]⟩
      (KDTreeSearchParam.knnParam 1)).ret = -1 :=
  ⟨(C3_empty_ingest_leaves_unbuilt KnnFaiss.init rfl 0 5 [] (Or.inl rfl)).1,
   (C3_empty_ingest_leaves_unbuilt KnnFaiss.init rfl 0 5 [] (Or.inl rfl)).2.2.1
     ⟨3, 1, [1, 2, 3]⟩ (KDTreeSearchParam.knnParam 1)⟩

/-- C4: ingesting a geometry variant outside the supported set returns
false, logs a warning, and leaves every field of the index exactly as it
was (the whole state is unchanged), including any previously-built state. -/
theorem C4_unsupported_geometry_noop (s : KnnFaiss) (g : Geometry)
    (h : g.gtype = GeometryType.Image ∨ g.gtype = GeometryType.Unspecified) :
    (setGeometry s g).ok = false ∧ (setGeometry s g).warned = true ∧
    (setGeometry s g).post = s := by
  rcases h with h | h <;> simp [setGeometry, h]

/-- C4 witness on a previously-built index and an Image geometry. -/
theorem C4_witness :
    (setGeometry builtOne ⟨GeometryType.Image, 2, [0, 0, 0, 0, 0, 0]⟩).ok = false ∧
    (setGeometry builtOne ⟨GeometryType.Image, 2, [0, 0, 0, 0, 0, 0]⟩).post = builtOne :=
  ⟨(C4_unsupported_geometry_noop builtOne ⟨GeometryType.Image, 2, [0, 0, 0, 0, 0, 0]⟩
      (Or.inl rfl)).1,
   (C4_unsupported_geometry_noop builtOne ⟨GeometryType.Image, 2, [0, 0, 0, 0, 0, 0]⟩
      (Or.inl rfl)).2.2⟩

/-- C5: the Search entry point dispatches the Knn tag to SearchKNN, the
Radius tag to SearchRadius, and returns the sentinel -1 with no backend
invocation and an unchanged state for the Hybrid tag. -/
theorem C5_search_dispatch (s : KnnFaiss) (q : Query) (k : Int) (r : ℚ) :
    search s q (KDTreeSearchParam.knnParam k) =
      ⟨(searchKNN s q k).ret, (searchKNN s q k).call.map BackendCall.knnCall,
        (searchKNN s q k).post⟩ ∧
    search s q (KDTreeSearchParam.radiusParam r) =
      ⟨(searchRadius s q r).ret, (searchRadius s q r).call.map BackendCall.rangeCall,
        (searchRadius s q r).post⟩ ∧
    search s q (KDTreeSearchParam.hybridParam k r) = ⟨-1, none, s⟩ :=
  ⟨rfl, rfl, rfl⟩

/-- C6: SearchKNN returns the sentinel -1 without invoking the backend
when the index is unbuilt (empty buffer or zero dataset size), the query
row count mismatches the dimension, or k is negative; when all
preconditions hold, it invokes the backend on the query and returns k. -/
theorem C6_knn_preconditions (s : KnnFaiss) (q : Query) (k : Int) :
    ((s.data_ = [] ∨ s.dataset_size_ = 0 ∨ q.rows ≠ s.dimension_ ∨ k < 0) →
      searchKNN s q k = ⟨-1, none, s⟩) ∧
    (s.data_ ≠ [] → s.dataset_size_ ≠ 0 → q.rows = s.dimension_ → 0 ≤ k →
      (searchKNN s q k).ret = k ∧
      (searchKNN s q k).call =
        some (flatKnnSearchBatch (s.index.getD emptyIndex) q k.toNat)) := by
  constructor
  · intro h
    rw [searchKNN, if_pos h]
  · intro h1 h2 h3 h4
    have hc : ¬(s.data_ = [] ∨ s.dataset_size_ = 0 ∨ q.rows ≠ s.dimension_ ∨ k < 0) := by
      push_neg
      exact ⟨h1, h2, h3, h4⟩
    rw [searchKNN, if_neg hc]
    exact ⟨rfl, rfl⟩

/-- C6 witness: a never-built index fails with -1; a built index with a
matching 1-row query and k = 2 returns 2. -/
theorem C6_witness :
    searchKNN KnnFaiss.init ⟨3, 1, [0, 0, 0]⟩ 1 = ⟨-1, none, KnnFaiss.init⟩ ∧
    (searchKNN builtOne ⟨1, 1, [5]⟩ 2).ret = 2 :=
  ⟨(C6_knn_preconditions KnnFaiss.init ⟨3, 1, [0, 0, 0]⟩ 1).1 (Or.inl rfl),
   ((C6_knn_preconditions builtOne ⟨1, 1, [5]⟩ 2).2 (by decide) (by decide) (by decide)
      (by decide)).1⟩

/-- C7: SearchRadius has the same build and dimensionality preconditions
as SearchKNN, failing with -1, and on success returns the constant 1
(a non-informative success marker) with the backend invoked. -/
theorem C7_radius_preconditions (s : KnnFaiss) (q : Query) (r : ℚ) :
    ((s.data_ = [] ∨ s.dataset_size_ = 0 ∨ q.rows ≠ s.dimension_) →
      searchRadius s q r = ⟨-1, none, s⟩) ∧
    (s.data_ ≠ [] → s.dataset_size_ ≠ 0 → q.rows = s.dimension_ →
      searchRadius s q r = ⟨1, some ⟨q.cols, r⟩, s⟩) := by
  constructor
  · intro h
    rw [searchRadius, if_pos h]
  · intro h1 h2 h3
    have hc : ¬(s.data_ = [] ∨ s.dataset_size_ = 0 ∨ q.rows ≠ s.dimension_) := by
      push_neg
      exact ⟨h1, h2, h3⟩
    rw [searchRadius, if_neg hc]

/-- C7 witness: unbuilt index fails with -1; built index returns the
constant 1 even though the dataset holds a single point. -/
theorem C7_witness :
    searchRadius KnnFaiss.init ⟨3, 1, [0, 0, 0]⟩ 2 = ⟨-1, none, KnnFaiss.init⟩ ∧
    (searchRadius builtOne ⟨1, 1, [5]⟩ 2).ret = 1 :=
  ⟨(C7_radius_preconditions KnnFaiss.init ⟨3, 1, [0, 0, 0]⟩ 2).1 (Or.inl rfl),
   by rw [(C7_radius_preconditions builtOne ⟨1, 1, [5]⟩ 2).2 (by decide) (by decide)
       (by decide)]⟩

/-- C8: every search operation is const — for every state, query and
argument, and whatever the outcome, the post state equals the input state
in every field. -/
theorem C8_search_preserves_state (s : KnnFaiss) (q : Query) (k : Int) (r : ℚ)
    (p : KDTreeSearchParam) :
    (searchKNN s q k).post = s ∧ (searchRadius s q r).post = s ∧
    (search s q p).post = s := by
  have hk : ∀ k2 : Int, (searchKNN s q k2).post = s := by
    intro k2
    rw [searchKNN]
    split <;> rfl
  have hr : ∀ r2 : ℚ, (searchRadius s q r2).post = s := by
    intro r2
    rw [searchRadius]
    split <;> rfl
  refine ⟨hk k, hr r, ?_⟩
  cases p with
  | knnParam k2 => exact hk k2
  | radiusParam r2 => exact hr r2
  | hybridParam k2 r2 => rfl

/-- C9 counterexample: after a successful build from a 1 × 1 matrix,
re-ingesting the empty 0 × 5 matrix returns false but stores
dataset_size_ = 5, not 0, contradicting the claim that both counters are
set to zero. -/
theorem C9_counterexample_sizes_not_zeroed :
    (setRawData KnnFaiss.init 1 1 [oneBits]).ok = true ∧
    (setRawData builtOne 0 5 []).ok = false ∧
    (setRawData builtOne 0 5 []).post.dataset_size_ = 5 ∧
    0 < (setRawData builtOne 0 5 []).post.dataset_size_ := by decide

/-- C9 amended: a failed empty re-ingestion on a built index overwrites
dimension_ and dataset_size_ with the empty source's row and column
counts (at least one of which is zero) before returning false, and leaves
data_ and the backend handle in place. When the empty matrix had 0
columns, every later search returns -1; when it had 0 rows, every later
SearchKNN or SearchRadius whose query has a positive row count returns
-1 (a zero-row query can still reach the stale backend). -/
theorem C9_empty_reingest_invalidation (s : KnnFaiss) (_hs : s.data_ ≠ [])
    (rows cols : Nat) (src : List Nat) (h : rows = 0 ∨ cols = 0) :
    (setRawData s rows cols src).ok = false ∧
    (setRawData s rows cols src).post.dimension_ = rows ∧
    (setRawData s rows cols src).post.dataset_size_ = cols ∧
    (setRawData s rows cols src).post.data_ = s.data_ ∧
    (setRawData s rows cols src).post.index = s.index ∧
    (cols = 0 → ∀ q p, (search (setRawData s rows cols src).post q p).ret = -1) ∧
    (rows = 0 → ∀ (q : Query) (k : Int) (r : ℚ), 0 < q.rows →
      (searchKNN (setRawData s rows cols src).post q k).ret = -1 ∧
      (searchRadius (setRawData s rows cols src).post q r).ret = -1) := by
  have hset : setRawData s rows cols src =
      ⟨false, true, { s with dimension_ := rows, dataset_size_ := cols }⟩ := by
    simp only [setRawData]
    rw [if_pos h]
  rw [hset]
  refine ⟨rfl, rfl, rfl, rfl, rfl, ?_, ?_⟩
  · intro hc q p
    cases p with
    | knnParam k =>
      show (searchKNN { s with dimension_ := rows, dataset_size_ := cols } q k).ret = -1
      rw [searchKNN, if_pos (Or.inr (Or.inl hc))]
    | radiusParam r =>
      show (searchRadius { s with dimension_ := rows, dataset_size_ := cols } q r).ret = -1
      rw [searchRadius, if_pos (Or.inr (Or.inl hc))]
    | hybridParam k r => rfl
  · intro hr q k r hq
    have hne : q.rows ≠ rows := by omega
    constructor
    · rw [searchKNN, if_pos (Or.inr (Or.inr (Or.inl hne)))]
    · rw [searchRadius, if_pos (Or.inr (Or.inr hne))]

/-- C9 witness at the concrete 0 × 5 re-ingestion. -/
theorem C9_witness :
    (setRawData builtOne 0 5 []).post.dataset_size_ = 5 ∧
    (searchKNN (setRawData builtOne 0 5 []).post ⟨3, 1, [0, 0, 0]⟩ 1).ret = -1 :=
  ⟨(C9_empty_reingest_invalidation builtOne (by decide) 0 5 [] (Or.inl rfl)).2.2.1,
   ((C9_empty_reingest_invalidation builtOne (by decide) 0 5 [] (Or.inl rfl)).2.2.2.2.2.2
      rfl ⟨3, 1, [0, 0, 0]⟩ 1 0 (by decide)).1⟩

/-- C10: SearchRadius never validates the radius — on a built index with a
dimension-matching query, any radius (negative included) is forwarded
verbatim to the backend range search and the success marker 1 is
returned. -/
theorem C10_radius_forwarded_unchecked (s : KnnFaiss) (q : Query) (r : ℚ)
    (h1 : s.data_ ≠ []) (h2 : s.dataset_size_ ≠ 0) (h3 : q.rows = s.dimension_) :
    searchRadius s q r = ⟨1, some ⟨q.cols, r⟩, s⟩ := by
  have hc : ¬(s.data_ = [] ∨ s.dataset_size_ = 0 ∨ q.rows ≠ s.dimension_) := by
    push_neg
    exact ⟨h1, h2, h3⟩
  rw [searchRadius, if_neg hc]

/-- C10 witness with a negative radius. -/
theorem C10_witness :
    searchRadius builtOne ⟨1, 1, [5]⟩ (-5) = ⟨1, some ⟨1, -5⟩, builtOne⟩ :=
  C10_radius_forwarded_unchecked builtOne ⟨1, 1, [5]⟩ (-5) (by decide) (by decide)
    (by decide)

end Open3DKnn

